import Mathlib

/-!
Verification of the nanobanana VS Code extension's orchestration layer:
a shallow embedding of the Gemini client wrapper (`GeminiService`), the
template catalog (`PrePromptService`), and the message-handling view
provider (`NanoBananaViewProvider`), with theorems checking the spec's
claims against these definitions.
-/

namespace NanoBanana

/-- JS `String.prototype.includes`: substring containment. -/
def jsIncludes (s pat : String) : Bool :=
  s.toList.tails.any (fun t => pat.toList.isPrefixOf t)

/-- JS `v || d` for an optional string `v`: the default is taken when `v`
is `undefined` or falsy (the empty string). -/
def jsOrString (v : Option String) (d : String) : String :=
  match v with
  | some s => if s = "" then d else s
  | none => d

/-- JS `String.prototype.trim`: strip leading and trailing whitespace. -/
def jsTrim (s : String) : String :=
  String.mk (((s.toList.dropWhile Char.isWhitespace).reverse.dropWhile
    Char.isWhitespace).reverse)

/-- The bound `GoogleGenAI` client, identified by the key it was built from. -/
structure Client where
  apiKey : String
deriving Repr, DecidableEq

/-- `GeneratedImage` from `types.ts`. -/
structure GeneratedImage where
  base64 : String
  mimeType : String
deriving Repr, DecidableEq

/-- `ImageConfig` from `types.ts` (`numberOfImages` is never read by the code). -/
structure ImageConfig where
  model : Option String := none
  aspectRatio : Option String := none
deriving Repr, DecidableEq

/-- An inline-data payload of a response part (`part.inlineData`). -/
structure InlineData where
  data : String
  mimeType : Option String
deriving Repr, DecidableEq

/-- One content part of the API response. -/
structure Part where
  inlineData : Option InlineData := none
  text : Option String := none
deriving Repr, DecidableEq

/-- The request issued by `generateDiagram`: the model id and the prompt
passed as `contents`. -/
structure GenRequest where
  model : String
  contents : String
deriving Repr, DecidableEq

/-- Outcome of the remote call `client.models.generateContent`: either a thrown
failure (`some msg` an `Error` with that message, `none` a non-`Error` value),
or a response, projected to `response.candidates?.[0]?.content?.parts`
(`none` when any link of that optional chain is absent). -/
abbrev ApiOutcome := Except (Option String) (Option (List Part))

def notInitializedMsg : String := "Gemini API not initialized. Please set your API key."
def emptyResponseMsg : String := "No response from model. Please try a different prompt."
def noImageMsg : String := "No image was generated. Please try a different prompt."
def invalidKeyMsg : String := "Invalid API key. Please check your Gemini API key."
def rateLimitMsg : String := "API rate limit exceeded. Please try again later."
def unexpectedMsg : String := "An unexpected error occurred during image generation."
def defaultModelId : String := "gemini-3-pro-image-preview"

/-- The `catch` block of `generateDiagram` (geminiService.ts lines 50-64):
reclassifies an error by substring matching on its message; a non-`Error`
value is replaced by a generic message. -/
def classifyError (e : Option String) : String :=
  match e with
  | some message =>
    if jsIncludes message "API key" then invalidKeyMsg
    else if jsIncludes message "quota" || jsIncludes message "rate" then rateLimitMsg
    else message
  | none => unexpectedMsg

/-- The `for (const part of parts)` scan: first part carrying inline data. -/
def findInlineData : List Part → Option InlineData
  | [] => none
  | p :: rest =>
    match p.inlineData with
    | some d => some d
    | none => findInlineData rest

/-- The `try` block of `generateDiagram` after the request returns, with every
throw routed through the `catch` block (`classifyError`), exactly as in the
source: the internal `EmptyResponse` and `NoImageProduced` throws sit inside
the same `try` as the remote call. -/
def tryGenerate (out : ApiOutcome) : Except String GeneratedImage :=
  match out with
  | .error e => .error (classifyError e)
  | .ok none => .error (classifyError (some emptyResponseMsg))
  | .ok (some parts) =>
    if parts.isEmpty then .error (classifyError (some emptyResponseMsg))
    else
      match findInlineData parts with
      | some d => .ok { base64 := d.data, mimeType := jsOrString d.mimeType "image/png" }
      | none => .error (classifyError (some noImageMsg))

/-- `GeminiService` state: the private `client` field. -/
structure GeminiService where
  client : Option Client
deriving Repr, DecidableEq

/-- `GeminiService.initialize(apiKey)`: binds a fresh client built from the key. -/
def GeminiService.initClient (_s : GeminiService) (apiKey : String) : GeminiService :=
  { client := some { apiKey := apiKey } }

/-- `GeminiService.isInitialized()`. -/
def GeminiService.isInitialized (s : GeminiService) : Bool :=
  s.client.isSome

/-- `GeminiService.generateDiagram(diagramTypePrompt, userContent, config)`,
with the remote API abstracted as an oracle `api`. Returns the service state
after the call, the request issued (`none` when the call failed before
issuing one), and the result. -/
def GeminiService.generateDiagram (s : GeminiService)
    (diagramTypePrompt userContent : String) (config : ImageConfig)
    (api : GenRequest → ApiOutcome) :
    GeminiService × Option GenRequest × Except String GeneratedImage :=
  match s.client with
  | none => (s, none, .error notInitializedMsg)
  | some _ =>
    let finalPrompt := diagramTypePrompt ++ " showing: " ++ userContent
    let req : GenRequest :=
      { model := jsOrString config.model defaultModelId, contents := finalPrompt }
    (s, some req, tryGenerate (api req))

/-- `PrePrompt` from `types.ts`. -/
structure PrePrompt where
  id : String
  name : String
  prompt : String
  isDefault : Bool
deriving Repr, DecidableEq

/-- The built-in template table `DEFAULT_PREPROMPTS` of prePromptService.ts. -/
def DEFAULT_PREPROMPTS : List PrePrompt :=
  [ { id := "flowchart", name := "Flowchart",
      prompt := "clean flowchart diagram, boxes and arrows, clear labels, professional technical illustration, white background",
      isDefault := true },
    { id := "sequence", name := "Sequence Diagram",
      prompt := "UML sequence diagram, lifelines, messages, activations, professional technical diagram, white background",
      isDefault := true },
    { id := "architecture", name := "Architecture Diagram",
      prompt := "software architecture diagram, components, connections, layers, clean technical illustration, white background",
      isDefault := true },
    { id := "er-diagram", name := "ER Diagram",
      prompt := "entity-relationship diagram, tables, relationships, cardinality notation, database schema, white background",
      isDefault := true },
    { id := "mindmap", name := "Mind Map",
      prompt := "mind map diagram, central topic with branching subtopics, colorful nodes, organic connections",
      isDefault := true },
    { id := "network", name := "Network Diagram",
      prompt := "network topology diagram, nodes, connections, servers, clients, infrastructure illustration, white background",
      isDefault := true },
    { id := "class-diagram", name := "Class Diagram",
      prompt := "UML class diagram, classes with attributes and methods, inheritance arrows, associations, white background",
      isDefault := true },
    { id := "state-machine", name := "State Machine",
      prompt := "state machine diagram, states as circles, transitions as arrows, initial and final states, white background",
      isDefault := true } ]

/-- `getAllPrePrompts()`: built-ins first, then the stored custom list. -/
def getAllPrePrompts (custom : List PrePrompt) : List PrePrompt :=
  DEFAULT_PREPROMPTS ++ custom

/-- `getPrePromptById(id)`. -/
def getPrePromptById (custom : List PrePrompt) (id : String) : Option PrePrompt :=
  (getAllPrePrompts custom).find? (fun p => p.id == id)

/-- `isDefaultPrePrompt(id)`. -/
def isDefaultPrePrompt (id : String) : Bool :=
  DEFAULT_PREPROMPTS.any (fun p => p.id == id)

/-- `addPrePrompt(name, prompt)`: `Date.now()` is passed in as `now`. Returns
the created record and the new stored custom list. -/
def addPrePrompt (custom : List PrePrompt) (name prompt : String) (now : Nat) :
    PrePrompt × List PrePrompt :=
  let newPrePrompt : PrePrompt :=
    { id := "custom_" ++ toString now, name := name, prompt := prompt, isDefault := false }
  (newPrePrompt, custom ++ [newPrePrompt])

/-- `deletePrePrompt(id)`: returns whether a deletion happened and the new
stored custom list. -/
def deletePrePrompt (custom : List PrePrompt) (id : String) : Bool × List PrePrompt :=
  match custom.find? (fun p => p.id == id) with
  | none => (false, custom)
  | some p =>
    if p.isDefault then (false, custom)
    else (true, custom.filter (fun q => q.id != id))

/-- The in-place rewrite applied to the custom entry matching `id`. -/
def updateEntry (id name prompt : String) (q : PrePrompt) : PrePrompt :=
  if q.id == id then { q with name := name, prompt := prompt } else q

/-- Modelled from the spec: `PrePromptService.updatePrePrompt` is invoked by
`NanoBananaViewProvider.handleUpdatePrePrompt` but its definition is absent
from the sources. Per the spec, `update(id, name, promptFragment)` fails if
`id` resolves to a built-in template or to no template, and otherwise mutates
the stored custom entry in place, preserving `id` and position. Failure is
modelled as `none`. -/
def updatePrePrompt (custom : List PrePrompt) (id name prompt : String) :
    Option (List PrePrompt) :=
  match getPrePromptById custom id with
  | none => none
  | some p =>
    if p.isDefault then none
    else some (custom.map (updateEntry id name prompt))

/-- One catalog mutation, for reasoning about operation sequences. -/
inductive CatalogOp where
  | add (name prompt : String) (now : Nat)
  | update (id name prompt : String)
  | del (id : String)
deriving Repr, DecidableEq

/-- Apply one catalog operation to the stored custom list (failed operations
leave it unchanged, as the service does). -/
def applyOp (custom : List PrePrompt) : CatalogOp → List PrePrompt
  | .add name prompt now => (addPrePrompt custom name prompt now).2
  | .update id name prompt =>
    match updatePrePrompt custom id name prompt with
    | some custom' => custom'
    | none => custom
  | .del id => (deletePrePrompt custom id).2

/-- Apply a finite sequence of catalog operations. -/
def applyOps (custom : List PrePrompt) (ops : List CatalogOp) : List PrePrompt :=
  ops.foldl applyOp custom

/-- `SelectionInfo` from `types.ts`. -/
structure SelectionInfo where
  text : String
  lineCount : Nat
deriving Repr, DecidableEq

/-- The non-empty-selection branch of `getSelectedText`: split on newline,
keep the first 100 lines, rejoin, and report the capped line count. -/
def getSelectedText (text : String) : SelectionInfo :=
  let lines := text.splitOn "\n"
  let limitedLines := lines.take 100
  { text := String.intercalate "\n" limitedLines,
    lineCount := min lines.length 100 }

/-- Lines 157-163 of `handleGenerate`: the effective content given the passed
`userContent`, the `useSelection` flag, and the current selection snapshot. -/
def resolveContent (userContent : String) (useSelection : Bool)
    (selection : Option SelectionInfo) : String :=
  if useSelection then
    match selection with
    | some sel => sel.text
    | none => userContent
  else userContent

/-- Session state of the view provider: the Gemini service and the stored key. -/
structure SessionState where
  gemini : GeminiService
  storedKey : Option String
deriving Repr, DecidableEq

/-- `handleDeleteApiKey`: deletes the stored key; the Gemini service is left
untouched. -/
def handleDeleteApiKey (s : SessionState) : SessionState :=
  { s with storedKey := none }

/-- `handleSaveApiKey`: stores the key and binds the client. -/
def handleSaveApiKey (s : SessionState) (apiKey : String) : SessionState :=
  { gemini := s.gemini.initClient apiKey, storedKey := some apiKey }

/-- The outcome posted back to the webview by `handleGenerate`. -/
inductive GenOutcome where
  | errorMsg (msg : String)
  | generated (img : GeneratedImage)
deriving Repr, DecidableEq

def noCredentialMsg : String := "Please set your Gemini API key first."
def templateNotFoundMsg : String := "Selected diagram type not found."
def emptyContentMsg : String := "Please enter a description for your diagram."

/-- Result of `handleGenerate`: the session state afterwards, which client (if
any) the generation request was issued with, and the posted outcome. -/
structure GenReturn where
  state : SessionState
  usedClient : Option Client
  outcome : GenOutcome
deriving Repr, DecidableEq

/-- `handleGenerate(userContent, prePromptId, useSelection)` with the catalog's
stored custom list, the current selection, the effective configuration and the
remote API supplied as parameters. Thrown errors are caught at the boundary
and posted as error messages, as in the source. -/
def handleGenerate (custom : List PrePrompt) (selection : Option SelectionInfo)
    (config : ImageConfig) (api : GenRequest → ApiOutcome)
    (s : SessionState) (userContent prePromptId : String) (useSelection : Bool) :
    GenReturn :=
  let credStep : Option GeminiService :=
    if s.gemini.isInitialized then some s.gemini
    else
      match s.storedKey with
      | none => none
      | some apiKey => some (s.gemini.initClient apiKey)
  match credStep with
  | none => { state := s, usedClient := none, outcome := .errorMsg noCredentialMsg }
  | some svc =>
    let s1 : SessionState := { s with gemini := svc }
    match getPrePromptById custom prePromptId with
    | none =>
      { state := s1, usedClient := none, outcome := .errorMsg templateNotFoundMsg }
    | some prePrompt =>
      let content := resolveContent userContent useSelection selection
      if jsTrim content = "" then
        { state := s1, usedClient := none, outcome := .errorMsg emptyContentMsg }
      else
        let r := s1.gemini.generateDiagram prePrompt.prompt content config api
        { state := { s1 with gemini := r.1 },
          usedClient := s1.gemini.client,
          outcome :=
            match r.2.2 with
            | .ok img => .generated img
            | .error msg => .errorMsg msg }

end NanoBanana

namespace NanoBanana

/-! ## Helper lemmas -/

/-- `generateDiagram` contains no assignment to `client`: the service state it
returns is the one it was given. -/
theorem generateDiagram_state_fix (s : GeminiService) (fragment content : String)
    (config : ImageConfig) (api : GenRequest → ApiOutcome) :
    (s.generateDiagram fragment content config api).1 = s := by
  unfold GeminiService.generateDiagram
  cases s.client <;> simp

/-! ## Claims -/

/-- C1: for every template fragment `fragment` and user content `content`,
`generateDiagram` on an initialized service issues its request with
`contents` equal to the exact concatenation of `fragment`, the literal
`" showing: "`, and `content`. -/
theorem generateDiagram_issues_concatenated_prompt (s : GeminiService) (c : Client)
    (h : s.client = some c) (fragment content : String) (config : ImageConfig)
    (api : GenRequest → ApiOutcome) :
    (s.generateDiagram fragment content config api).2.1 =
      some { model := jsOrString config.model defaultModelId,
             contents := fragment ++ " showing: " ++ content } := by
  simp [GeminiService.generateDiagram, h]

theorem generateDiagram_issues_concatenated_prompt_witness :
    (GeminiService.generateDiagram { client := some { apiKey := "k" } }
        "clean flowchart diagram..." "login flow" {} (fun _ => .ok none)).2.1 =
      some { model := "gemini-3-pro-image-preview",
             contents := "clean flowchart diagram... showing: login flow" } :=
  generateDiagram_issues_concatenated_prompt { client := some { apiKey := "k" } }
    { apiKey := "k" } rfl "clean flowchart diagram..." "login flow" {} (fun _ => .ok none)

/-- C2 (code bug): a response with zero content parts does fail with the
`EmptyResponse` message, but a response whose only part is pure text does NOT
surface the `NoImageProduced` message: the internal throw
`"No image was generated. Please try a different prompt."` is caught by the
same `catch` block that classifies transport errors, the word `"generated"`
contains the substring `"rate"`, so it is reclassified into the rate-limit
message. -/
theorem textOnly_response_misclassified_as_rateLimit :
    (GeminiService.generateDiagram { client := some { apiKey := "key" } } "frag" "content" {}
        (fun _ => .ok (some [{ inlineData := none, text := some "I cannot draw that" }]))).2.2
      = .error rateLimitMsg ∧
    (GeminiService.generateDiagram { client := some { apiKey := "key" } } "frag" "content" {}
        (fun _ => .ok (some []))).2.2 = .error emptyResponseMsg ∧
    (GeminiService.generateDiagram { client := some { apiKey := "key" } } "frag" "content" {}
        (fun _ => .ok none)).2.2 = .error emptyResponseMsg ∧
    jsIncludes noImageMsg "rate" = true ∧
    rateLimitMsg ≠ noImageMsg :=
  ⟨rfl, rfl, rfl, rfl, by decide⟩

/-- C3: every transport/API failure is routed through `classifyError`: a
message containing `"API key"` becomes the invalid-credential message; else a
message containing `"quota"` or `"rate"` becomes the rate-limit message; any
other `Error` message is rethrown unchanged; a non-`Error` failure is replaced
by the generic unexpected-error message. -/
theorem transport_errors_reclassified (s : GeminiService) (c : Client)
    (h : s.client = some c) (fragment content : String) (config : ImageConfig)
    (e : Option String) :
    (s.generateDiagram fragment content config (fun _ => .error e)).2.2 =
      .error (classifyError e) ∧
    (∀ m, jsIncludes m "API key" = true → classifyError (some m) = invalidKeyMsg) ∧
    (∀ m, jsIncludes m "API key" = false →
      (jsIncludes m "quota" || jsIncludes m "rate") = true →
      classifyError (some m) = rateLimitMsg) ∧
    (∀ m, jsIncludes m "API key" = false → jsIncludes m "quota" = false →
      jsIncludes m "rate" = false → classifyError (some m) = m) ∧
    classifyError none = unexpectedMsg := by
  refine ⟨by simp [GeminiService.generateDiagram, h, tryGenerate], ?_, ?_, ?_, rfl⟩
  · intro m hm
    simp [classifyError, hm]
  · intro m hm1 hm2
    simp [classifyError, hm1, hm2]
  · intro m h1 h2 h3
    simp [classifyError, h1, h2, h3]

theorem transport_errors_reclassified_witness :
    (GeminiService.generateDiagram { client := some { apiKey := "k" } } "f" "c" {}
        (fun _ => .error (some "quota exceeded"))).2.2 =
      .error (classifyError (some "quota exceeded")) ∧
    classifyError (some "quota exceeded") = rateLimitMsg :=
  ⟨(transport_errors_reclassified { client := some { apiKey := "k" } } { apiKey := "k" }
      rfl "f" "c" {} (some "quota exceeded")).1,
   (transport_errors_reclassified { client := some { apiKey := "k" } } { apiKey := "k" }
      rfl "f" "c" {} (some "quota exceeded")).2.2.1 "quota exceeded" (by decide) (by decide)⟩

/-- C8: when the parts list has at least one part carrying inline data,
`generateDiagram` returns the first such part in scan order, normalized to
`{base64, mimeType}` with the mime type defaulting to `"image/png"` when the
API omits it. -/
theorem generateDiagram_returns_first_inline (s : GeminiService) (c : Client)
    (h : s.client = some c) (pre post : List Part) (p : Part) (d : InlineData)
    (hpre : ∀ q ∈ pre, q.inlineData = none) (hp : p.inlineData = some d)
    (fragment content : String) (config : ImageConfig) :
    (s.generateDiagram fragment content config
        (fun _ => .ok (some (pre ++ p :: post)))).2.2 =
      .ok { base64 := d.data, mimeType := jsOrString d.mimeType "image/png" } := by
  have hfind : findInlineData (pre ++ p :: post) = some d := by
    induction pre with
    | nil => simp [findInlineData, hp]
    | cons q rest ih =>
      have hq : q.inlineData = none := hpre q (by simp)
      have ih2 := ih (fun r hr => hpre r (by simp [hr]))
      simpa [findInlineData, hq] using ih2
  have hne : (pre ++ p :: post).isEmpty = false := by simp
  simp [GeminiService.generateDiagram, h, tryGenerate, hne, hfind]

theorem generateDiagram_returns_first_inline_witness :
    (GeminiService.generateDiagram { client := some { apiKey := "k" } } "f" "c" {}
        (fun _ => .ok (some [{ inlineData := some { data := "QQ==", mimeType := some "image/png" },
                               text := none }]))).2.2 =
      .ok { base64 := "QQ==", mimeType := "image/png" } :=
  generateDiagram_returns_first_inline { client := some { apiKey := "k" } } { apiKey := "k" }
    rfl [] [] { inlineData := some { data := "QQ==", mimeType := some "image/png" }, text := none }
    { data := "QQ==", mimeType := some "image/png" }
    (by intro q hq; cases hq) rfl "f" "c" {}

/-- C10: `generateDiagram` never mutates the client binding: for an
initialized service, after any call — success or failure — the service state
is unchanged, `isInitialized` still holds, and the bound client is the same. -/
theorem generateDiagram_preserves_binding (s : GeminiService) (c : Client)
    (h : s.client = some c) (fragment content : String) (config : ImageConfig)
    (api : GenRequest → ApiOutcome) :
    (s.generateDiagram fragment content config api).1 = s ∧
    (s.generateDiagram fragment content config api).1.isInitialized = true ∧
    (s.generateDiagram fragment content config api).1.client = some c := by
  have h1 := generateDiagram_state_fix s fragment content config api
  exact ⟨h1, by simp [h1, GeminiService.isInitialized, h], by simp [h1, h]⟩

theorem generateDiagram_preserves_binding_witness :
    (GeminiService.generateDiagram { client := some { apiKey := "k" } } "f" "c" {}
        (fun _ => .error (some "boom"))).1 = { client := some { apiKey := "k" } } ∧
    (GeminiService.generateDiagram { client := some { apiKey := "k" } } "f" "c" {}
        (fun _ => .error (some "boom"))).1.isInitialized = true ∧
    (GeminiService.generateDiagram { client := some { apiKey := "k" } } "f" "c" {}
        (fun _ => .error (some "boom"))).1.client = some { apiKey := "k" } :=
  generateDiagram_preserves_binding { client := some { apiKey := "k" } } { apiKey := "k" }
    rfl "f" "c" {} (fun _ => .error (some "boom"))

end NanoBanana

namespace NanoBanana

/-- C7: for every selection text splitting into `n` lines, the produced
snapshot has `lineCount = min n 100` and `text` equal to exactly the first
`min n 100` lines rejoined with newline. -/
theorem getSelectedText_caps_at_100 (text : String) :
    (getSelectedText text).lineCount = min (text.splitOn "\n").length 100 ∧
    (getSelectedText text).text =
      String.intercalate "\n"
        ((text.splitOn "\n").take (min (text.splitOn "\n").length 100)) := by
  refine ⟨rfl, ?_⟩
  show String.intercalate "\n" ((text.splitOn "\n").take 100) = _
  congr 1
  rw [← List.take_take]
  rw [List.take_of_length_le (show ((text.splitOn "\n").take 100).length ≤ (text.splitOn "\n").length by simp)]

/-- C9: with `useSelection = true`, a present selection snapshot makes the
effective content the selection text, ignoring the passed `userContent`; with
no current selection the effective content remains the passed `userContent`. -/
theorem resolveContent_useSelection (userContent : String)
    (selection : Option SelectionInfo) :
    (∀ sel, selection = some sel →
      resolveContent userContent true selection = sel.text) ∧
    (selection = none → resolveContent userContent true selection = userContent) := by
  constructor
  · intro sel hsel
    simp [resolveContent, hsel]
  · intro hsel
    simp [resolveContent, hsel]

theorem resolveContent_useSelection_witness :
    resolveContent "typed content" true (some { text := "selected code", lineCount := 1 }) =
      "selected code" ∧
    resolveContent "typed content" true none = "typed content" :=
  ⟨(resolveContent_useSelection "typed content"
      (some { text := "selected code", lineCount := 1 })).1
      { text := "selected code", lineCount := 1 } rfl,
   (resolveContent_useSelection "typed content" none).2 rfl⟩

/-- C4 (update operation modelled from the spec, its implementation being
absent from the sources): `updatePrePrompt` fails when `id` resolves to a
built-in template or to no template, and otherwise rewrites the stored custom
list in place — every position keeps its entry's `id` (and `isDefault`), the
matching entry gets the new `name` and `prompt`, and every other entry is
untouched. -/
theorem updatePrePrompt_noteditable_or_in_place (custom : List PrePrompt)
    (id name prompt : String) :
    (getPrePromptById custom id = none → updatePrePrompt custom id name prompt = none) ∧
    (∀ p, getPrePromptById custom id = some p → p.isDefault = true →
      updatePrePrompt custom id name prompt = none) ∧
    (∀ p, getPrePromptById custom id = some p → p.isDefault = false →
      updatePrePrompt custom id name prompt =
        some (custom.map (updateEntry id name prompt)) ∧
      (custom.map (updateEntry id name prompt)).map (fun q => q.id) =
        custom.map (fun q => q.id) ∧
      (custom.map (updateEntry id name prompt)).map (fun q => q.isDefault) =
        custom.map (fun q => q.isDefault) ∧
      (∀ q, q.id = id → updateEntry id name prompt q =
        { id := q.id, name := name, prompt := prompt, isDefault := q.isDefault }) ∧
      (∀ q, q.id ≠ id → updateEntry id name prompt q = q)) := by
  refine ⟨?_, ?_, ?_⟩
  · intro h
    simp [updatePrePrompt, h]
  · intro p hp hdef
    simp [updatePrePrompt, hp, hdef]
  · intro p hp hdef
    refine ⟨by simp [updatePrePrompt, hp, hdef], ?_, ?_, ?_, ?_⟩
    · rw [List.map_map]
      apply List.map_congr_left
      intro q _
      simp only [Function.comp]
      unfold updateEntry
      split <;> rfl
    · rw [List.map_map]
      apply List.map_congr_left
      intro q _
      simp only [Function.comp]
      unfold updateEntry
      split <;> rfl
    · intro q hq
      simp [updateEntry, hq]
    · intro q hq
      simp [updateEntry, hq]

theorem updatePrePrompt_noteditable_or_in_place_witness :
    updatePrePrompt
      [{ id := "custom_1", name := "Old", prompt := "old prompt", isDefault := false }]
      "custom_1" "New" "new prompt" =
    some ([{ id := "custom_1", name := "Old", prompt := "old prompt", isDefault := false }].map
      (updateEntry "custom_1" "New" "new prompt")) :=
  ((updatePrePrompt_noteditable_or_in_place
      [{ id := "custom_1", name := "Old", prompt := "old prompt", isDefault := false }]
      "custom_1" "New" "new prompt").2.2
    { id := "custom_1", name := "Old", prompt := "old prompt", isDefault := false }
    (by decide) rfl).1

/-- A successful `updatePrePrompt` result is the in-place map of the custom
list. -/
theorem updatePrePrompt_eq_some (custom : List PrePrompt) (id name prompt : String)
    (l : List PrePrompt) (h : updatePrePrompt custom id name prompt = some l) :
    l = custom.map (updateEntry id name prompt) := by
  unfold updatePrePrompt at h
  cases hfind : getPrePromptById custom id with
  | none => rw [hfind] at h; cases h
  | some p =>
    rw [hfind] at h
    by_cases hdef : p.isDefault
    · simp [hdef] at h
    · simp [hdef] at h
      exact h.symm

/-- One catalog operation keeps every stored custom entry non-default. -/
theorem applyOp_preserves_nonDefault (custom : List PrePrompt) (op : CatalogOp)
    (hwf : ∀ p ∈ custom, p.isDefault = false) :
    ∀ p ∈ applyOp custom op, p.isDefault = false := by
  cases op with
  | add name prompt now =>
    intro p hp
    simp [applyOp, addPrePrompt] at hp
    rcases hp with hp | hp
    · exact hwf p hp
    · rw [hp]
  | update id name prompt =>
    intro p hp
    simp only [applyOp] at hp
    cases hu : updatePrePrompt custom id name prompt with
    | none => rw [hu] at hp; exact hwf p hp
    | some l =>
      rw [hu] at hp
      rw [updatePrePrompt_eq_some custom id name prompt l hu] at hp
      obtain ⟨q, hq, hq2⟩ := List.mem_map.mp hp
      rw [← hq2]
      unfold updateEntry
      split
      · exact hwf q hq
      · exact hwf q hq
  | del id =>
    intro p hp
    simp only [applyOp, deletePrePrompt] at hp
    cases hfind : custom.find? (fun p => p.id == id) with
    | none => rw [hfind] at hp; exact hwf p hp
    | some q =>
      rw [hfind] at hp
      by_cases hdef : q.isDefault
      · simp [hdef] at hp; exact hwf p hp
      · simp [hdef] at hp
        exact hwf p hp.1

/-- A finite sequence of catalog operations keeps every stored custom entry
non-default. -/
theorem applyOps_preserves_nonDefault (ops : List CatalogOp) :
    ∀ custom, (∀ p ∈ custom, p.isDefault = false) →
      ∀ p ∈ applyOps custom ops, p.isDefault = false := by
  induction ops with
  | nil =>
    intro custom h
    simpa [applyOps] using h
  | cons op rest ih =>
    intro custom h
    have : applyOps custom (op :: rest) = applyOps (applyOp custom op) rest := rfl
    rw [this]
    exact ih (applyOp custom op) (applyOp_preserves_nonDefault custom op h)

/-- C6: for an id naming a built-in template, and any catalog state whose
stored custom entries are genuinely custom (non-default, ids distinct from the
built-in ids — as every state reachable by the service's own operations is),
`deletePrePrompt` returns `false` and leaves the stored list unchanged; and
the built-in template set of the uniform catalog is identical after any finite
sequence of add/update/delete operations. -/
theorem builtin_delete_fails_and_builtins_invariant (custom : List PrePrompt)
    (id : String)
    (hclash : ∀ p ∈ custom, isDefaultPrePrompt p.id = false)
    (hwf : ∀ p ∈ custom, p.isDefault = false)
    (hid : isDefaultPrePrompt id = true) :
    deletePrePrompt custom id = (false, custom) ∧
    ∀ ops, (getAllPrePrompts (applyOps custom ops)).filter (fun p => p.isDefault) =
      DEFAULT_PREPROMPTS := by
  constructor
  · have hfind : custom.find? (fun p => p.id == id) = none := by
      rw [List.find?_eq_none]
      intro p hp hbeq
      have : p.id = id := by simpa using hbeq
      rw [← this] at hid
      rw [hclash p hp] at hid
      cases hid
    simp [deletePrePrompt, hfind]
  · intro ops
    have hwf2 := applyOps_preserves_nonDefault ops custom hwf
    unfold getAllPrePrompts
    rw [List.filter_append]
    have h1 : DEFAULT_PREPROMPTS.filter (fun p => p.isDefault) = DEFAULT_PREPROMPTS := rfl
    have h2 : (applyOps custom ops).filter (fun p => p.isDefault) = [] := by
      rw [List.filter_eq_nil_iff]
      intro p hp
      simp [hwf2 p hp]
    rw [h1, h2, List.append_nil]

theorem builtin_delete_fails_and_builtins_invariant_witness :
    deletePrePrompt [] "flowchart" = (false, []) ∧
    (getAllPrePrompts (applyOps []
        [CatalogOp.add "My Type" "my prompt" 5, CatalogOp.del "flowchart",
         CatalogOp.update "flowchart" "x" "y"])).filter (fun p => p.isDefault) =
      DEFAULT_PREPROMPTS :=
  ⟨(builtin_delete_fails_and_builtins_invariant [] "flowchart"
      (by intro p hp; cases hp) (by intro p hp; cases hp) rfl).1,
   (builtin_delete_fails_and_builtins_invariant [] "flowchart"
      (by intro p hp; cases hp) (by intro p hp; cases hp) rfl).2
      [CatalogOp.add "My Type" "my prompt" 5, CatalogOp.del "flowchart",
       CatalogOp.update "flowchart" "x" "y"]⟩


/-- Characterization of `handleGenerate` when the service is already
initialized: the credential-fetch branch is skipped entirely and any issued
generation uses the already-bound client. -/
theorem handleGenerate_initialized (custom : List PrePrompt)
    (selection : Option SelectionInfo) (config : ImageConfig)
    (api : GenRequest → ApiOutcome) (s : SessionState) (c : Client)
    (h : s.gemini.client = some c) (userContent prePromptId : String)
    (useSelection : Bool) :
    handleGenerate custom selection config api s userContent prePromptId useSelection =
      match getPrePromptById custom prePromptId with
      | none => { state := s, usedClient := none, outcome := .errorMsg templateNotFoundMsg }
      | some prePrompt =>
        if jsTrim (resolveContent userContent useSelection selection) = "" then
          { state := s, usedClient := none, outcome := .errorMsg emptyContentMsg }
        else
          { state := s, usedClient := some c,
            outcome :=
              match (s.gemini.generateDiagram prePrompt.prompt
                  (resolveContent userContent useSelection selection) config api).2.2 with
              | .ok img => .generated img
              | .error msg => .errorMsg msg } := by
  have hinit : s.gemini.isInitialized = true := by
    simp [GeminiService.isInitialized, h]
  unfold handleGenerate
  rw [hinit]
  simp only [if_true]
  cases hfind : getPrePromptById custom prePromptId with
  | none => rfl
  | some prePrompt =>
    by_cases hc : jsTrim (resolveContent userContent useSelection selection) = ""
    · simp [hc]
    · have hfix := generateDiagram_state_fix s.gemini prePrompt.prompt
        (resolveContent userContent useSelection selection) config api
      simp [hc, hfix, h]

/-- C5 counterexample: with a previously initialized client, deleting the
credential and immediately generating does NOT fail with the no-credential
error — `handleDeleteApiKey` clears only the stored key, `isInitialized`
still holds, and generation proceeds with the previously bound client. -/
theorem deleteKey_then_generate_counterexample :
    (handleGenerate [] none {}
        (fun _ => .ok (some [{ inlineData := some { data := "QQ==", mimeType := some "image/png" },
                               text := none }]))
        (handleDeleteApiKey
          { gemini := { client := some { apiKey := "k1" } }, storedKey := some "k1" })
        "login flow" "flowchart" false).outcome =
      .generated { base64 := "QQ==", mimeType := "image/png" } ∧
    (handleGenerate [] none {}
        (fun _ => .ok (some [{ inlineData := some { data := "QQ==", mimeType := some "image/png" },
                               text := none }]))
        (handleDeleteApiKey
          { gemini := { client := some { apiKey := "k1" } }, storedKey := some "k1" })
        "login flow" "flowchart" false).usedClient = some { apiKey := "k1" } ∧
    (handleGenerate [] none {}
        (fun _ => .ok (some [{ inlineData := some { data := "QQ==", mimeType := some "image/png" },
                               text := none }]))
        (handleDeleteApiKey
          { gemini := { client := some { apiKey := "k1" } }, storedKey := some "k1" })
        "login flow" "flowchart" false).outcome ≠ .errorMsg noCredentialMsg := by
  refine ⟨by decide, by decide, by decide⟩

/-- C5 amended: `onDeleteCredential` clears only the stored key; a following
`onGenerate` with a previously initialized client keeps the binding, issues
any generation with that same previously bound client, and can only fail the
pre-generation checks with the template-not-found or empty-content errors —
never with the no-credential error. -/
theorem deleteKey_then_generate_reuses_client (s : SessionState) (c : Client)
    (h : s.gemini.client = some c) (custom : List PrePrompt)
    (selection : Option SelectionInfo) (config : ImageConfig)
    (api : GenRequest → ApiOutcome) (userContent prePromptId : String)
    (useSelection : Bool) :
    (handleGenerate custom selection config api (handleDeleteApiKey s)
        userContent prePromptId useSelection).state.gemini.client = some c ∧
    (∀ cl, (handleGenerate custom selection config api (handleDeleteApiKey s)
        userContent prePromptId useSelection).usedClient = some cl → cl = c) ∧
    ((handleGenerate custom selection config api (handleDeleteApiKey s)
        userContent prePromptId useSelection).usedClient = none →
      (handleGenerate custom selection config api (handleDeleteApiKey s)
          userContent prePromptId useSelection).outcome = .errorMsg templateNotFoundMsg ∨
      (handleGenerate custom selection config api (handleDeleteApiKey s)
          userContent prePromptId useSelection).outcome = .errorMsg emptyContentMsg) := by
  have h2 : (handleDeleteApiKey s).gemini.client = some c := h
  rw [handleGenerate_initialized custom selection config api (handleDeleteApiKey s) c h2
    userContent prePromptId useSelection]
  cases hfind : getPrePromptById custom prePromptId with
  | none =>
    dsimp only
    exact ⟨h2, fun cl hcl => Option.noConfusion hcl, fun _ => Or.inl rfl⟩
  | some prePrompt =>
    dsimp only
    by_cases hc : jsTrim (resolveContent userContent useSelection selection) = ""
    · rw [if_pos hc]
      exact ⟨h2, fun cl hcl => Option.noConfusion hcl, fun _ => Or.inr rfl⟩
    · rw [if_neg hc]
      refine ⟨h2, ?_, ?_⟩
      · intro cl hcl
        injection hcl with hcl
        exact hcl.symm
      · intro hnone
        exact Option.noConfusion hnone

theorem deleteKey_then_generate_reuses_client_witness :
    (handleGenerate [] none {} (fun _ => .ok none)
        (handleDeleteApiKey
          { gemini := { client := some { apiKey := "k1" } }, storedKey := some "k1" })
        "x" "nope" false).state.gemini.client = some { apiKey := "k1" } ∧
    ((handleGenerate [] none {} (fun _ => .ok none)
        (handleDeleteApiKey
          { gemini := { client := some { apiKey := "k1" } }, storedKey := some "k1" })
        "x" "nope" false).outcome = .errorMsg templateNotFoundMsg ∨
     (handleGenerate [] none {} (fun _ => .ok none)
        (handleDeleteApiKey
          { gemini := { client := some { apiKey := "k1" } }, storedKey := some "k1" })
        "x" "nope" false).outcome = .errorMsg emptyContentMsg) :=
  ⟨(deleteKey_then_generate_reuses_client
      { gemini := { client := some { apiKey := "k1" } }, storedKey := some "k1" }
      { apiKey := "k1" } rfl [] none {} (fun _ => .ok none) "x" "nope" false).1,
   (deleteKey_then_generate_reuses_client
      { gemini := { client := some { apiKey := "k1" } }, storedKey := some "k1" }
      { apiKey := "k1" } rfl [] none {} (fun _ => .ok none) "x" "nope" false).2.2
      (by decide)⟩

end NanoBanana
